import Mathlib

/-!
Verification development for the fuel-analysis dummy-dataset generator
(src/dummy_dataset.py). The script is a single linear pipeline: it builds a
fuel-quality table over 2 ships x 2 fuel tanks x 46 month starts, derives a
failure record per (engine, pump) from each quality row, concatenates the two
tables side by side, reorders the columns and writes them to a CSV file.

The embedding below is shallow: Python floats become rationals, the random
draws (numpy uniform and normal samples, the reset-point choice) become
explicit parameters, and the pandas tables become Lean lists of structures.
Rounding `round(x, n)` is modelled as round-to-nearest on rationals.
-/

/-- Model of Python `round(x, 2)`: round to nearest at two decimal places. -/
def round2 (x : ℚ) : ℚ := ((round (x * 100) : ℤ) : ℚ) / 100

/-- Model of Python `round(x, 3)`: round to nearest at three decimal places. -/
def round3 (x : ℚ) : ℚ := ((round (x * 1000) : ℤ) : ℚ) / 1000

/-- Source line 6: `ships = ['QNLZ', 'PWLS']`. -/
def ships : List String := ["QNLZ", "PWLS"]

/-- Source line 7: `fuel_tanks = ['FWD DG RU', 'AFT DG RU']`. -/
def fuel_tanks : List String := ["FWD DG RU", "AFT DG RU"]

/-- A calendar month encoded as `12 * year + (month - 1)`. -/
def monthCode (year month : ℕ) : ℕ := 12 * year + (month - 1)

/-- Source lines 10-12: `pd.date_range(datetime(2021,1,1), datetime(2024,10,1),
freq='MS')`, the list of month starts from January 2021 to October 2024
inclusive, encoded as month codes. -/
def date_range : List ℕ :=
  (List.range (monthCode 2024 10 + 1 - monthCode 2021 1)).map
    (fun i => monthCode 2021 1 + i)

/-- Source lines 15-16: `gradual_degrade(start_value, months, drift, noise)`
returns `np.clip([start_value - (i * drift) + normal(0, noise) for i in
range(months)], 0, None)`. The i-th gaussian draw is passed in explicitly as
`g i`; `np.clip v 0 None` is `max v 0`. -/
def gradual_degrade (start_value : ℚ) (months : ℕ) (drift : ℚ) (g : ℕ → ℚ) :
    List ℚ :=
  ((List.range months).map (fun i => start_value - (i * drift) + g i)).map
    (fun v => max v 0)

/-- One row of the fuel-quality table `df` (source lines 80-98): ship, fuel
tank, date, and the eight fuel-quality metrics in column order. -/
structure QualityRow where
  ship : String
  fuel_tank : String
  date : ℕ
  density : ℚ
  water_reaction : ℚ
  flash_point : ℚ
  filter_block : ℚ
  cloud_point : ℚ
  sulphur : ℚ
  cfu : ℚ
  water_content : ℚ
deriving DecidableEq

/-- Source line 36, the local `degradation_factor` of `generate_failure_time`:
`((cfu / 100) + (water_content / 200) + filter_block / 3) * uniform(0.8, 1.2)`
with each of the three fields first clamped to at least 1 (lines 30-32).
The uniform draw is the explicit argument `m`. -/
def degradation_factor (fuel_quality : QualityRow) (m : ℚ) : ℚ :=
  let cfu := max fuel_quality.cfu 1
  let water_content := max fuel_quality.water_content 1
  let filter_block := max fuel_quality.filter_block 1
  ((cfu / 100) + (water_content / 200) + filter_block / 3) * m

/-- Source lines 29-41: `generate_failure_time(fuel_quality)` with the
`np.random.uniform(0.8, 1.2)` draw passed in as `m`:
`round(max(200, 10000 / degradation_factor), 2)`. -/
def generate_failure_time (fuel_quality : QualityRow) (m : ℚ) : ℚ :=
  let base_failure_time : ℚ := 10000
  let time_til_failure := max 200 (base_failure_time / degradation_factor fuel_quality m)
  round2 time_til_failure

/-- Written from the words of the spec (section 4.2), for comparison with the
source-derived `generate_failure_time`: inputs floored to a minimum of 1, then
`round(max(200, 10000 / ((cfu/100 + water_content/200 + filter_block/3) * m)), 2)`. -/
def failure_time_from_spec (cfu water_content filter_block m : ℚ) : ℚ :=
  round2 (max 200 (10000 / ((max cfu 1 / 100 + max water_content 1 / 200 + max filter_block 1 / 3) * m)))

/-- A concrete quality row with cfu = 1, water content = 1 and filter-blocking
tendency = 1, used by the spec example of section 8. -/
def exampleRow111 : QualityRow :=
  { ship := "QNLZ", fuel_tank := "FWD DG RU", date := monthCode 2021 1,
    density := 810, water_reaction := 1, flash_point := 65,
    filter_block := 1, cloud_point := 0, sulphur := 1/10,
    cfu := 1, water_content := 1 }

-- Helper lemmas about round2.

theorem round2_le_round2 {x y : ℚ} (h : x ≤ y) : round2 x ≤ round2 y := by
  unfold round2
  have hx : round (x * 100) ≤ round (y * 100) := by
    rw [round_eq, round_eq]
    exact Int.floor_le_floor (by linarith)
  have : ((round (x * 100) : ℤ) : ℚ) ≤ ((round (y * 100) : ℤ) : ℚ) := by
    exact_mod_cast hx
  linarith

theorem round2_intCast (n : ℤ) : round2 (n : ℚ) = n := by
  unfold round2
  have : ((n : ℚ) * 100) = ((n * 100 : ℤ) : ℚ) := by push_cast; ring
  rw [this, round_intCast]
  push_cast
  field_simp

theorem le_round2_of_le {x : ℚ} {n : ℤ} (h : (n : ℚ) ≤ x) : (n : ℚ) ≤ round2 x := by
  have := round2_le_round2 h
  rwa [round2_intCast] at this

/-- The clamped sum inside `degradation_factor` is at least
1/100 + 1/200 + 1/3 = 209/600. -/
theorem degradation_sum_pos (fq : QualityRow) :
    (209 : ℚ) / 600 ≤
      max fq.cfu 1 / 100 + max fq.water_content 1 / 200 + max fq.filter_block 1 / 3 := by
  have h1 : (1 : ℚ) ≤ max fq.cfu 1 := le_max_right _ _
  have h2 : (1 : ℚ) ≤ max fq.water_content 1 := le_max_right _ _
  have h3 : (1 : ℚ) ≤ max fq.filter_block 1 := le_max_right _ _
  linarith

/-- Claim C1: for every fuel-quality sample and multiplier draw,
`generate_failure_time` returns `round(max(200, 10000 / d), 2)` where
`d = (cfu/100 + water_content/200 + filter_block/3) * m` and cfu, water
content and filter-blocking tendency are each floored to a minimum of 1 —
the source-derived function agrees with the formula written from the spec. -/
theorem generate_failure_time_matches_spec (fq : QualityRow) (m : ℚ) :
    generate_failure_time fq m =
      failure_time_from_spec fq.cfu fq.water_content fq.filter_block m := rfl

/-- Claim C2: for every fuel-quality sample and every multiplier value in the
support [0.8, 1.2] of the uniform draw, the returned value is at least 200. -/
theorem generate_failure_time_ge_200 (fq : QualityRow) (m : ℚ)
    (hm : (8 : ℚ) / 10 ≤ m) (hm' : m ≤ (12 : ℚ) / 10) :
    (200 : ℚ) ≤ generate_failure_time fq m := by
  unfold generate_failure_time
  have h : (200 : ℚ) ≤ max 200 (10000 / degradation_factor fq m) := le_max_left _ _
  have := le_round2_of_le (n := 200) (by exact_mod_cast h)
  exact_mod_cast this

/-- Witness for C2 at the concrete sample `exampleRow111` and multiplier 1. -/
theorem generate_failure_time_ge_200_witness :
    (200 : ℚ) ≤ generate_failure_time exampleRow111 1 :=
  generate_failure_time_ge_200 exampleRow111 1 (by norm_num) (by norm_num)

/-- Claim C8: each of the three inputs is floored to a minimum of 1, so the
degradation factor is strictly positive for every sample and every multiplier
draw in [0.8, 1.2]: the division 10000 / degradation_factor is never a
division by zero. -/
theorem degradation_factor_pos (fq : QualityRow) (m : ℚ)
    (hm : (8 : ℚ) / 10 ≤ m) (hm' : m ≤ (12 : ℚ) / 10) :
    0 < degradation_factor fq m ∧ degradation_factor fq m ≠ 0 := by
  have hs := degradation_sum_pos fq
  have hpos : 0 < degradation_factor fq m := by
    unfold degradation_factor
    have : (0 : ℚ) < 209 / 600 := by norm_num
    exact mul_pos (by linarith) (by linarith)
  exact ⟨hpos, ne_of_gt hpos⟩

/-- Witness for C8 at the concrete sample `exampleRow111` and multiplier 1. -/
theorem degradation_factor_pos_witness :
    0 < degradation_factor exampleRow111 1 ∧ degradation_factor exampleRow111 1 ≠ 0 :=
  degradation_factor_pos exampleRow111 1 (by norm_num) (by norm_num)

/-- A second concrete quality row, pointwise worse than `exampleRow111` in the
three fields that `generate_failure_time` reads. -/
def exampleRowWorse : QualityRow :=
  { ship := "QNLZ", fuel_tank := "FWD DG RU", date := monthCode 2021 1,
    density := 810, water_reaction := 1, flash_point := 65,
    filter_block := 3, cloud_point := 0, sulphur := 1/10,
    cfu := 150, water_content := 220 }

/-- Counterexample to claim C4 as stated: at cfu = 1, water content = 1,
filter-blocking tendency = 1 and multiplier 1, `generate_failure_time`
returns 28708.13, which is not approximately 28735.63 — it falls short of the
claimed value by more than 27. The claimed chain truncates 1/3 to 0.333; the
code divides by the exact 1/100 + 1/200 + 1/3 = 209/600. -/
theorem generate_failure_time_example_not_28735 :
    generate_failure_time exampleRow111 1 = 2870813 / 100 ∧
    generate_failure_time exampleRow111 1 ≠ 2873563 / 100 ∧
    27 < (2873563 / 100 : ℚ) - generate_failure_time exampleRow111 1 := by
  have h : generate_failure_time exampleRow111 1 = 2870813 / 100 := by
    norm_num [generate_failure_time, degradation_factor, exampleRow111, round2, round_eq]
  refine ⟨h, by rw [h]; norm_num, by rw [h]; norm_num⟩

/-- Claim C4 (amended): at cfu = 1, water content = 1, filter-blocking
tendency = 1 and multiplier 1, `generate_failure_time` returns 28708.13
(degradation factor 209/600, 10000 / (209/600) = 6000000/209 which rounds to
28708.13), and the result is not clamped to 200 since there is no upper
clamp. -/
theorem generate_failure_time_example_value :
    generate_failure_time exampleRow111 1 = 2870813 / 100 ∧
    (200 : ℚ) < generate_failure_time exampleRow111 1 := by
  have h : generate_failure_time exampleRow111 1 = 2870813 / 100 := by
    norm_num [generate_failure_time, degradation_factor, exampleRow111, round2, round_eq]
  exact ⟨h, by rw [h]; norm_num⟩

/-- Claim C6: with the multiplier held fixed in the support [0.8, 1.2] of the
uniform draw, raising any of the colony-forming-unit count, water content or
filter-blocking tendency (weakly, in any combination, others fixed) does not
increase the value returned by `generate_failure_time`. -/
theorem generate_failure_time_antitone (fq fq' : QualityRow) (m : ℚ)
    (hm : (8 : ℚ) / 10 ≤ m) (hm' : m ≤ (12 : ℚ) / 10)
    (h1 : fq.cfu ≤ fq'.cfu) (h2 : fq.water_content ≤ fq'.water_content)
    (h3 : fq.filter_block ≤ fq'.filter_block) :
    generate_failure_time fq' m ≤ generate_failure_time fq m := by
  unfold generate_failure_time
  apply round2_le_round2
  apply max_le_max (le_refl (200 : ℚ))
  have hsum := degradation_sum_pos fq
  have hmpos : (0 : ℚ) < m := by linarith
  have hdfpos : 0 < degradation_factor fq m := by
    unfold degradation_factor
    exact mul_pos (by linarith) hmpos
  have hdfle : degradation_factor fq m ≤ degradation_factor fq' m := by
    unfold degradation_factor
    have e1 : max fq.cfu 1 ≤ max fq'.cfu 1 := max_le_max h1 (le_refl 1)
    have e2 : max fq.water_content 1 ≤ max fq'.water_content 1 :=
      max_le_max h2 (le_refl 1)
    have e3 : max fq.filter_block 1 ≤ max fq'.filter_block 1 :=
      max_le_max h3 (le_refl 1)
    have : max fq.cfu 1 / 100 + max fq.water_content 1 / 200 + max fq.filter_block 1 / 3 ≤
        max fq'.cfu 1 / 100 + max fq'.water_content 1 / 200 + max fq'.filter_block 1 / 3 := by
      linarith
    exact mul_le_mul_of_nonneg_right this (le_of_lt hmpos)
  gcongr

/-- Witness for C6: the pointwise-worse sample `exampleRowWorse` gets a
failure time no larger than that of `exampleRow111`, at multiplier 1. -/
theorem generate_failure_time_antitone_witness :
    generate_failure_time exampleRowWorse 1 ≤ generate_failure_time exampleRow111 1 :=
  generate_failure_time_antitone exampleRow111 exampleRowWorse 1
    (by norm_num) (by norm_num)
    (by norm_num [exampleRow111, exampleRowWorse])
    (by norm_num [exampleRow111, exampleRowWorse])
    (by norm_num [exampleRow111, exampleRowWorse])

/-- Claim C5: for every starting value, step count, drift and sequence of
gaussian draws, `gradual_degrade` returns exactly `months` elements, element i
equals max(0, start - i * drift + g i), and every element is nonnegative. -/
theorem gradual_degrade_spec (start_value : ℚ) (months : ℕ) (drift : ℚ) (g : ℕ → ℚ) :
    (gradual_degrade start_value months drift g).length = months ∧
    (∀ i, i < months →
      (gradual_degrade start_value months drift g)[i]? =
        some (max 0 (start_value - i * drift + g i))) ∧
    (∀ v ∈ gradual_degrade start_value months drift g, 0 ≤ v) := by
  refine ⟨by simp [gradual_degrade], ?_, ?_⟩
  · intro i hi
    simp [gradual_degrade, List.getElem?_map, List.getElem?_range hi, max_comm]
  · intro v hv
    simp only [gradual_degrade, List.mem_map] at hv
    obtain ⟨w, _, rfl⟩ := hv
    exact le_max_right w 0

/-- Witness for C5 at start 5, three steps, drift 1 and zero noise. -/
theorem gradual_degrade_spec_witness :
    (gradual_degrade 5 3 1 (fun _ => 0)).length = 3 ∧
    (gradual_degrade 5 3 1 (fun _ => 0))[2]? = some 3 ∧
    (0 : ℚ) ≤ 5 := by
  obtain ⟨h1, h2, h3⟩ := gradual_degrade_spec 5 3 1 (fun _ => 0)
  refine ⟨h1, ?_, h3 5 ?_⟩
  · have h := h2 2 (by norm_num)
    rw [h]
    norm_num
  · simp [gradual_degrade, List.range_succ]

-- The generation pipeline (source lines 44-145), with the random draws made
-- explicit: each (ship, fuel tank) iteration consumes eight initial uniform
-- draws, one gaussian draw per metric per month, a choice of reset indices
-- and fresh uniform draws at those indices; each failure record consumes one
-- uniform multiplier draw.

/-- The random draws consumed by one metric of one (ship, fuel tank)
iteration: the initial uniform draw (source lines 48-55), the gaussian noise
draws fed to `gradual_degrade` (lines 58-65), and the fresh uniform draws
used at reset points (lines 70-77). -/
structure MetricDraws where
  start : ℚ
  g : ℕ → ℚ
  reset : ℕ → ℚ

/-- The random draws consumed by one (ship, fuel tank) iteration of the outer
loop, one `MetricDraws` per metric plus the reset indices chosen at source
line 68. -/
structure TankDraws where
  density : MetricDraws
  water_reaction : MetricDraws
  flash_point : MetricDraws
  filter_block : MetricDraws
  cloud_point : MetricDraws
  sulphur : MetricDraws
  cfu : MetricDraws
  water_content : MetricDraws
  reset_points : List ℕ

/-- Source lines 69-77: overwrite the value at each reset point with a fresh
draw, `vals[rp] = np.random.uniform(*range)`. -/
def applyResets (vals : List ℚ) (reset_points : List ℕ) (fresh : ℕ → ℚ) : List ℚ :=
  reset_points.foldl (fun vs rp => vs.set rp (fresh rp)) vals

/-- One metric series of one (ship, fuel tank) iteration: gradual degradation
from the initial draw over the whole date range (lines 58-65), then the reset
overwrites (lines 69-77). -/
def metricSeries (md : MetricDraws) (drift : ℚ) (reset_points : List ℕ) : List ℚ :=
  applyResets (gradual_degrade md.start date_range.length drift md.g) reset_points md.reset

/-- Source lines 80-91: the rows appended for one (ship, fuel tank) pair, one
per month, with the metric values rounded to 2 decimals (3 for sulphur) and
the drifts of lines 58-65. -/
def tankRows (ship fuel_tank : String) (d : TankDraws) : List QualityRow :=
  (List.range date_range.length).map (fun i =>
    { ship := ship
      fuel_tank := fuel_tank
      date := date_range.getD i 0
      density := round2 ((metricSeries d.density (5 / 10) d.reset_points).getD i 0)
      water_reaction := round2 ((metricSeries d.water_reaction (1 / 10) d.reset_points).getD i 0)
      flash_point := round2 ((metricSeries d.flash_point (5 / 10) d.reset_points).getD i 0)
      filter_block := round2 ((metricSeries d.filter_block (2 / 10) d.reset_points).getD i 0)
      cloud_point := round2 ((metricSeries d.cloud_point (2 / 10) d.reset_points).getD i 0)
      sulphur := round3 ((metricSeries d.sulphur (1 / 100) d.reset_points).getD i 0)
      cfu := round2 ((metricSeries d.cfu 5 d.reset_points).getD i 0)
      water_content := round2 ((metricSeries d.water_content 10 d.reset_points).getD i 0) })

/-- Source lines 44-98: the fuel-quality DataFrame `df`, one row per
ship x fuel tank x month, parameterised by the per-(ship, tank) draws `R`. -/
def df (R : String → String → TankDraws) : List QualityRow :=
  ships.flatMap (fun ship =>
    fuel_tanks.flatMap (fun fuel_tank => tankRows ship fuel_tank (R ship fuel_tank)))

/-- Source lines 106-110: the engines fed by a fuel tank and their pump
counts; DG1 and DG2 with 16 pumps each for the forward tank, DG3 and DG4 with
12 each otherwise. -/
def engines (fuel_tank : String) : List (String × ℕ) :=
  if fuel_tank = "FWD DG RU" then [("DG1", 16), ("DG2", 16)]
  else [("DG3", 12), ("DG4", 12)]

/-- One record of the failure table (source lines 119-126). -/
structure FailureRecord where
  ship : String
  engine : String
  engine_id : String
  fuel_pump_id : String
  time_til_failure : ℚ
  fuel_tank_feed : String
deriving DecidableEq

/-- Source lines 113-126: the failure records generated from one quality row,
one per engine and pump; `mult` supplies the uniform multiplier draw consumed
by each `generate_failure_time` call. -/
def pump_records (mult : QualityRow → String → ℕ → ℚ) (row : QualityRow) :
    List FailureRecord :=
  (engines row.fuel_tank).flatMap (fun en =>
    (List.range en.2).map (fun k =>
      { ship := row.ship
        engine := en.1
        engine_id := row.ship ++ "_" ++ en.1
        fuel_pump_id := en.1 ++ "_Pump_" ++ toString (k + 1)
        time_til_failure := generate_failure_time row (mult row en.1 (k + 1))
        fuel_tank_feed := row.fuel_tank }))

/-- Source lines 100-129: `failure_data_complete`, the flat list of failure
records over every row of `df`. -/
def failure_data_complete (R : String → String → TankDraws)
    (mult : QualityRow → String → ℕ → ℚ) : List FailureRecord :=
  (df R).flatMap (pump_records mult)

/-- Model of `pd.concat([xs, ys], axis=1)` on default integer indexes: the
result has max(len xs, len ys) rows, row i holding the i-th element of each
side when it exists and a null (None) when that side is exhausted. -/
def concatAxis1 {α β : Type} (xs : List α) (ys : List β) :
    List (Option α × Option β) :=
  (List.range (max xs.length ys.length)).map (fun i => (xs[i]?, ys[i]?))

/-- Source line 132: `merged_df_complete = pd.concat([df, failure_df_complete],
axis=1)` after both indexes are reset — a positional, side-by-side
concatenation. -/
def merged_df_complete (R : String → String → TankDraws)
    (mult : QualityRow → String → ℕ → ℚ) :
    List (Option QualityRow × Option FailureRecord) :=
  concatAxis1 (df R) (failure_data_complete R mult)

/-- Source lines 94-96: the column labels of `df`. -/
def columns : List String :=
  ["Ship", "Fuel Tank", "Date", "Density (kg/m3)", "Water Reaction Vol Change (ml)",
   "Flash Point (celsius)", "Filter Blocking Tendency", "Cloud Point (celsius)",
   "Sulphur (%)", "Colony Forming Units (CFU/ml)", "Water content (mg/kg)"]

/-- The column labels of `failure_df_complete` (the keys of the dict built at
source lines 119-126, in insertion order). -/
def failure_columns : List String :=
  ["Ship", "Engine", "Engine ID", "Fuel Pump ID", "Time Til Failure (hours)",
   "Fuel Tank Feed"]

/-- The column labels of `merged_df_complete`: `pd.concat(..., axis=1)` keeps
the labels of both sides, so the label Ship occurs twice. -/
def merged_columns : List String := columns ++ failure_columns

/-- Source lines 135-138: `cols_order_complete`, the declared output column
order, sixteen labels. -/
def cols_order_complete : List String :=
  ["Ship", "Engine", "Engine ID", "Fuel Pump ID", "Time Til Failure (hours)",
   "Fuel Tank Feed", "Fuel Tank", "Date", "Density (kg/m3)",
   "Water Reaction Vol Change (ml)", "Flash Point (celsius)",
   "Filter Blocking Tendency", "Cloud Point (celsius)", "Sulphur (%)",
   "Colony Forming Units (CFU/ml)", "Water content (mg/kg)"]

/-- Pandas label selection `frame[keys]` on a frame whose columns may carry
duplicate labels: for each requested key, every column bearing that label is
taken, in column order. -/
def selectColumns (cols keys : List String) : List String :=
  keys.flatMap (fun k => cols.filter (fun c => c = k))

/-- Source lines 141-145: the header row of the CSV written by
`reordered_df_complete.to_csv(..., index=False)` — the labels of
`merged_df_complete[cols_order_complete]`. -/
def csv_header : List String := selectColumns merged_columns cols_order_complete

-- A concrete instantiation of the random draws, used by witnesses and
-- counterexamples: every uniform draw is a fixed mid-range value, every
-- gaussian draw is zero, and the reset indices are 0, 1, 2.

/-- Concrete draws for one metric: start at 100, no noise, resets to 100. -/
def sampleMetricDraws : MetricDraws :=
  { start := 100, g := fun _ => 0, reset := fun _ => 100 }

/-- Concrete draws for one (ship, fuel tank) iteration. -/
def sampleTankDraws : TankDraws :=
  { density := sampleMetricDraws, water_reaction := sampleMetricDraws,
    flash_point := sampleMetricDraws, filter_block := sampleMetricDraws,
    cloud_point := sampleMetricDraws, sulphur := sampleMetricDraws,
    cfu := sampleMetricDraws, water_content := sampleMetricDraws,
    reset_points := [0, 1, 2] }

/-- Concrete per-(ship, tank) draws: the same draws everywhere. -/
def R0 : String → String → TankDraws := fun _ _ => sampleTankDraws

/-- Concrete multiplier draws: always 1. -/
def mult0 : QualityRow → String → ℕ → ℚ := fun _ _ _ => 1

-- Helper lemmas on lengths and positional access.

theorem length_flatMap_const {α β : Type} (l : List α) (f : α → List β) (n : ℕ)
    (h : ∀ a ∈ l, (f a).length = n) : (l.flatMap f).length = l.length * n := by
  induction l with
  | nil => simp
  | cons a t ih =>
    rw [List.flatMap_cons, List.length_append, h a (by simp),
      ih (fun b hb => h b (by simp [hb]))]
    simp [Nat.succ_mul, Nat.add_comm]

theorem date_range_length : date_range.length = 46 := by
  norm_num [date_range, monthCode]

theorem tankRows_length (s t : String) (d : TankDraws) :
    (tankRows s t d).length = 46 := by
  simp [tankRows, date_range_length]

theorem df_length (R : String → String → TankDraws) : (df R).length = 184 := by
  simp [df, ships, fuel_tanks, List.flatMap_cons, tankRows_length]

theorem mem_tankRows_fuel_tank (s t : String) (d : TankDraws) (row : QualityRow)
    (hrow : row ∈ tankRows s t d) : row.fuel_tank = t := by
  simp only [tankRows, List.mem_map, List.mem_range] at hrow
  obtain ⟨i, _, rfl⟩ := hrow
  rfl

theorem pump_records_length (mult : QualityRow → String → ℕ → ℚ) (row : QualityRow) :
    (pump_records mult row).length =
      if row.fuel_tank = "FWD DG RU" then 32 else 24 := by
  unfold pump_records engines
  by_cases h : row.fuel_tank = "FWD DG RU" <;> simp [h]

theorem tank_block_length (mult : QualityRow → String → ℕ → ℚ) (s t : String)
    (d : TankDraws) :
    ((tankRows s t d).flatMap (pump_records mult)).length =
      46 * (if t = "FWD DG RU" then 32 else 24) := by
  rw [length_flatMap_const _ _ (if t = "FWD DG RU" then 32 else 24), tankRows_length]
  intro row hrow
  rw [pump_records_length, mem_tankRows_fuel_tank s t d row hrow]

theorem failure_data_complete_length (R : String → String → TankDraws)
    (mult : QualityRow → String → ℕ → ℚ) :
    (failure_data_complete R mult).length = 5152 := by
  unfold failure_data_complete df
  have hne : ¬("AFT DG RU" : String) = "FWD DG RU" := by decide
  simp only [ships, fuel_tanks, List.flatMap_cons, List.flatMap_nil,
    List.append_nil, List.flatMap_append, List.length_append, tank_block_length]
  rw [if_neg hne]
  norm_num

theorem concatAxis1_length {α β : Type} (xs : List α) (ys : List β) :
    (concatAxis1 xs ys).length = max xs.length ys.length := by
  simp [concatAxis1]

theorem merged_df_complete_length (R : String → String → TankDraws)
    (mult : QualityRow → String → ℕ → ℚ) :
    (merged_df_complete R mult).length = 5152 := by
  rw [merged_df_complete, concatAxis1_length, df_length, failure_data_complete_length]
  decide

theorem concatAxis1_getD {α β : Type} (xs : List α) (ys : List β) (i : ℕ) :
    (concatAxis1 xs ys).getD i (none, none) = (xs[i]?, ys[i]?) := by
  by_cases h : i < max xs.length ys.length
  · rw [List.getD_eq_getElem?_getD, concatAxis1,
      List.getElem?_map, List.getElem?_range h]
    rfl
  · push_neg at h
    have hx : xs[i]? = none := List.getElem?_eq_none (le_trans (le_max_left _ _) h)
    have hy : ys[i]? = none := List.getElem?_eq_none (le_trans (le_max_right _ _) h)
    have hlen : (concatAxis1 xs ys).length ≤ i := by rw [concatAxis1_length]; exact h
    rw [List.getD_eq_getElem?_getD, List.getElem?_eq_none hlen, hx, hy]
    rfl

theorem merged_getD (R : String → String → TankDraws)
    (mult : QualityRow → String → ℕ → ℚ) (i : ℕ) :
    (merged_df_complete R mult).getD i (none, none) =
      ((df R)[i]?, (failure_data_complete R mult)[i]?) :=
  concatAxis1_getD _ _ i

/-- Claim C7: the number of data rows written to the CSV (the column
selection at source line 141 keeps every row of `merged_df_complete`, and
`to_csv` writes one line per row plus the header) equals the cross-product
size: 2 ships x, per tank, 2 engines with their per-tank pump count (16 for
the forward tank, 12 for the aft tank) x 46 month steps. -/
theorem csv_row_count (R : String → String → TankDraws)
    (mult : QualityRow → String → ℕ → ℚ) :
    (merged_df_complete R mult).length =
      ships.length * (2 * 16 + 2 * 12) * date_range.length := by
  rw [merged_df_complete_length, date_range_length]
  norm_num [ships]

/-- Counterexample to claim C3 as stated: under concrete draws, row 184 of the
merged table carries failure-record fields (its failure side is present) but a
null fuel-quality side — it is paired with no fuel-quality sample at all, let
alone the one with matching fuel tank and date. -/
theorem merged_row_184_no_quality :
    (merged_df_complete R0 mult0).length = 5152 ∧
    ((merged_df_complete R0 mult0).getD 184 (none, none)).1 = none ∧
    ((merged_df_complete R0 mult0).getD 184 (none, none)).2.isSome = true := by
  refine ⟨merged_df_complete_length R0 mult0, ?_, ?_⟩
  · rw [merged_getD]
    show (df R0)[184]? = none
    exact List.getElem?_eq_none (by rw [df_length])
  · rw [merged_getD]
    show ((failure_data_complete R0 mult0)[184]?).isSome = true
    rw [List.getElem?_eq_getElem (by rw [failure_data_complete_length]; norm_num)]
    rfl

/-- Claim C3 (amended): the failure-report table is not merged with the
fuel-quality table by fuel tank and date; `pd.concat(..., axis=1)` aligns the
two tables purely by row position — row i of the merged table holds the i-th
fuel-quality row beside the i-th failure record, and once the 184 quality
rows are exhausted (from row 184 on) the quality side is null. -/
theorem merged_positional (R : String → String → TankDraws)
    (mult : QualityRow → String → ℕ → ℚ) :
    (∀ i, (merged_df_complete R mult).getD i (none, none) =
        ((df R)[i]?, (failure_data_complete R mult)[i]?)) ∧
    (∀ i, 184 ≤ i → ((merged_df_complete R mult).getD i (none, none)).1 = none) := by
  refine ⟨merged_getD R mult, ?_⟩
  intro i hi
  rw [merged_getD]
  show (df R)[i]? = none
  exact List.getElem?_eq_none (by rw [df_length]; exact hi)

/-- Witness for the amended C3 at the concrete draws, rows 0 and 190. -/
theorem merged_positional_witness :
    (merged_df_complete R0 mult0).getD 0 (none, none) =
      ((df R0)[0]?, (failure_data_complete R0 mult0)[0]?) ∧
    ((merged_df_complete R0 mult0).getD 190 (none, none)).1 = none := by
  obtain ⟨h1, h2⟩ := merged_positional R0 mult0
  exact ⟨h1 0, h2 190 (by norm_num)⟩

/-- Claim C10: the fuel-quality table has 184 rows (2 ships x 2 tanks x 46
months), the failure table 5152; in the side-by-side concatenation every row
from index 184 on has a null fuel-quality side, and every row before index
184 carries its fuel-quality data. -/
theorem merged_quality_padding (R : String → String → TankDraws)
    (mult : QualityRow → String → ℕ → ℚ) :
    (df R).length = 184 ∧
    (failure_data_complete R mult).length = 5152 ∧
    (∀ i, 184 ≤ i → ((merged_df_complete R mult).getD i (none, none)).1 = none) ∧
    (∀ i, i < 184 →
      ((merged_df_complete R mult).getD i (none, none)).1.isSome = true) := by
  refine ⟨df_length R, failure_data_complete_length R mult, ?_, ?_⟩
  · intro i hi
    rw [merged_getD]
    show (df R)[i]? = none
    exact List.getElem?_eq_none (by rw [df_length]; exact hi)
  · intro i hi
    rw [merged_getD]
    show ((df R)[i]?).isSome = true
    rw [List.getElem?_eq_getElem (by rw [df_length]; exact hi)]
    rfl

/-- Witness for C10 at the concrete draws, rows 200 and 0. -/
theorem merged_quality_padding_witness :
    ((merged_df_complete R0 mult0).getD 200 (none, none)).1 = none ∧
    ((merged_df_complete R0 mult0).getD 0 (none, none)).1.isSome = true := by
  obtain ⟨-, -, h3, h4⟩ := merged_quality_padding R0 mult0
  exact ⟨h3 200 (by norm_num), h4 0 (by norm_num)⟩

/-- Counterexample to claim C9 as stated: the CSV header is not the sixteen
declared column names — both source tables carry a Ship column, the label
selection keeps every occurrence, and the header has seventeen entries. -/
theorem csv_header_not_sixteen :
    csv_header ≠ cols_order_complete ∧ csv_header.length = 17 ∧
    cols_order_complete.length = 16 := by
  have h17 : csv_header.length = 17 := by rfl
  have h16 : cols_order_complete.length = 16 := by rfl
  refine ⟨?_, h17, h16⟩
  intro h
  have hl := congrArg List.length h
  rw [h17, h16] at hl
  exact absurd hl (by norm_num)

/-- Claim C9 (amended): the CSV header consists of the sixteen declared
column names in the declared order, except that Ship appears twice at the
front (once from each concatenated table), for seventeen entries in all; no
declared column is missing. -/
theorem csv_header_value :
    csv_header = "Ship" :: cols_order_complete ∧
    ∀ c ∈ cols_order_complete, c ∈ csv_header := by
  have h : csv_header = "Ship" :: cols_order_complete := by rfl
  exact ⟨h, fun c hc => by rw [h]; exact List.mem_cons_of_mem _ hc⟩
